import Mathlib

/-!
Verification of the core of `clone_OS_bootable.py` (lpirl/admintools):
a shallow embedding of the cleanup stack (`Cleaner`), the `FileSystem`
construction logic, the orchestrator step sequence of `main`, the
`path` / `partition_number` / `device_path` helpers, and
`ensure_bootable_flag`, together with theorems about the behaviour the
specification describes.
-/

set_option autoImplicit false

namespace CloneOS

/-! ### Cleanup stack (`Cleaner`, lines 66-83)

A cleanup job is opaque; for draining only its identity and whether
executing it raises an exception matter.  The Python `Cleaner` keeps
`self._jobs` as a list in push order (`add_job` appends at the end) and
`do_one_job` pops from the end, so the list's last element is the top of
the stack.  We keep exactly that representation. -/

structure Job where
  id : Nat
  ok : Bool
  deriving DecidableEq, Repr

/-- `Cleaner.add_job`: append the job at the end of `_jobs`. -/
def add_job (jobs : List Job) (j : Job) : List Job :=
  jobs ++ [j]

/-- Pushing a whole sequence of jobs, in order, with `add_job`. -/
def pushAll (c : List Job) (js : List Job) : List Job :=
  js.foldl add_job c

/-- Helper for `do_all_jobs`, operating on the reversed stack (head =
most recently pushed job).  Each step pops the top job and executes it;
a job whose execution raises stops the drain (the exception propagates
out of `do_all_jobs`), the failing job having already been popped.
Returns the jobs executed (attempted), in execution order, and the
stack that remains, still top-first. -/
def drainRev : List Job → List Job × List Job
  | [] => ([], [])
  | j :: rest =>
    if j.ok then
      let p := drainRev rest
      (j :: p.1, p.2)
    else
      ([j], rest)

/-- `Cleaner.do_all_jobs` (lines 74-76): repeatedly pop the last job of
`_jobs` and execute it until the list is empty or a job raises.
Returns the executed (attempted) jobs in execution order and the final
contents of `_jobs` in push order. -/
def do_all_jobs (jobs : List Job) : List Job × List Job :=
  let p := drainRev jobs.reverse
  (p.1, p.2.reverse)

theorem pushAll_nil (js : List Job) : pushAll [] js = js := by
  suffices h : ∀ c, pushAll c js = c ++ js by simpa using h []
  induction js with
  | nil => intro c; simp [pushAll]
  | cons j rest ih =>
    intro c
    simp [pushAll, List.foldl_cons, add_job] at ih ⊢
    simpa using ih (c ++ [j])

theorem drainRev_all_ok (l : List Job) (h : ∀ j ∈ l, j.ok = true) :
    drainRev l = (l, []) := by
  induction l with
  | nil => rfl
  | cons j rest ih =>
    have hj : j.ok = true := h j (by simp)
    have hrest := ih (fun x hx => h x (by simp [hx]))
    simp [drainRev, hj, hrest]

theorem drainRev_stops (l1 l2 : List Job) (f : Job)
    (h1 : ∀ j ∈ l1, j.ok = true) (hf : f.ok = false) :
    drainRev (l1 ++ f :: l2) = (l1 ++ [f], l2) := by
  induction l1 with
  | nil => simp [drainRev, hf]
  | cons j rest ih =>
    have hj : j.ok = true := h1 j (by simp)
    have hrest := ih (fun x hx => h1 x (by simp [hx]))
    simp [drainRev, hj, hrest]

/-- C1: LIFO drain order.  Pushing jobs in order onto an empty cleaner
and draining executes them in reverse push order, empties the stack,
and in particular the first-pushed job (the orchestrator's disk-sync
job, line 519) executes last. -/
theorem do_all_jobs_lifo (js : List Job) (h : ∀ j ∈ js, j.ok = true) :
    do_all_jobs (pushAll [] js) = (js.reverse, []) ∧
    (js ≠ [] → (do_all_jobs (pushAll [] js)).1.getLast? = js.head?) := by
  have hdrain := drainRev_all_ok js.reverse (fun j hj => h j (List.mem_reverse.mp hj))
  have heq : do_all_jobs (pushAll [] js) = (js.reverse, []) := by
    simp [do_all_jobs, pushAll_nil, hdrain]
  refine ⟨heq, fun _ => ?_⟩
  rw [heq]
  exact List.getLast?_reverse js

/-- C1 witness: pushing jobs 0, 1, 2 and draining executes 2, 1, 0, with
job 0 (pushed first) executed last. -/
theorem do_all_jobs_lifo_witness :
    do_all_jobs (pushAll [] [⟨0, true⟩, ⟨1, true⟩, ⟨2, true⟩]) =
      ([⟨2, true⟩, ⟨1, true⟩, ⟨0, true⟩], []) ∧
    (do_all_jobs (pushAll [] [⟨0, true⟩, ⟨1, true⟩, ⟨2, true⟩])).1.getLast? =
      some ⟨0, true⟩ := by
  have h := do_all_jobs_lifo [⟨0, true⟩, ⟨1, true⟩, ⟨2, true⟩] (by decide)
  exact ⟨h.1, h.2 (by decide)⟩

/-- C4: draining stops at the first job that raises.  If the stack is
`earlier ++ f :: later` in push order, `f` raises and every later-pushed
job succeeds, then exactly the later-pushed jobs (in reverse push order)
followed by the failing `f` are executed, and the earlier-pushed jobs
all remain in the stack, untouched. -/
theorem do_all_jobs_stops_on_failure (earlier later : List Job) (f : Job)
    (hf : f.ok = false) (hlater : ∀ j ∈ later, j.ok = true) :
    do_all_jobs (pushAll [] (earlier ++ f :: later)) =
      (later.reverse ++ [f], earlier) := by
  have hrev : (earlier ++ f :: later).reverse =
      later.reverse ++ f :: earlier.reverse := by
    simp
  have h1 : ∀ j ∈ later.reverse, j.ok = true :=
    fun j hj => hlater j (List.mem_reverse.mp hj)
  have hdrain := drainRev_stops later.reverse earlier.reverse f h1 hf
  simp [do_all_jobs, pushAll_nil, hrev, hdrain]

/-- C4 witness: stack pushed in order 0, fail(1), 2 — job 2 and then the
failing job 1 are executed, job 0 remains in the stack. -/
theorem do_all_jobs_stops_on_failure_witness :
    do_all_jobs (pushAll [] [⟨0, true⟩, ⟨1, false⟩, ⟨2, true⟩]) =
      ([⟨2, true⟩, ⟨1, false⟩], [⟨0, true⟩]) := by
  exact do_all_jobs_stops_on_failure [⟨0, true⟩] [⟨2, true⟩] ⟨1, false⟩
    (by decide) (by decide)

/-! ### `FileSystem.__init__` (lines 132-228)

The constructor talks to external commands (`df`, `blkid`, `file`,
`cryptsetup`, `mount`).  An `Env` records what those commands answer;
the embedding threads the actions performed and the cleanup jobs
registered on the shared cleaner, and reports how construction ends:
normal return, `exit(n)`, or an uncaught exception. -/

/-- Python truthiness of an optional string argument (`if mountpoint:`):
`None` and the empty string are falsy. -/
def truthy : Option String → Bool
  | none => false
  | some s => !(s == "")

/-- Answers of the external commands probed during construction. -/
structure Env where
  deviceByMountPoint : String → String
  partitionByUuid : String → String
  uuidByDevice : String → String
  isLuks : Bool
  /-- Exit status of `cryptsetup luksOpen` (0 = success, 2 = wrong
  passphrase per lines 221-223). -/
  luksOpenRc : Nat

inductive InitResult
  | ok
  | exited (code : Nat)
  | raised
  deriving DecidableEq, Repr

inductive InitAction
  | getDeviceByMountPoint
  | getPartitionByUuid
  | getUuidByDevice (dev : String)
  | probeLuks
  | writePasswordTempfile
  | cryptsetupLuksOpen
  | mountCmd
  deriving DecidableEq, Repr

inductive CleanJob
  | restoreUmask
  | removePasswordFile
  | luksClose (name : String)
  | rmdirMountpoint
  | umountMountpoint
  deriving DecidableEq, Repr

structure InitOutcome where
  result : InitResult
  actions : List InitAction
  jobs : List CleanJob
  deriving DecidableEq, Repr

/-- Python `str.startswith`, on the underlying character lists. -/
def startswith (pre s : String) : Bool :=
  pre.data.isPrefixOf s.data

/-- `FileSystem.get_device_by_mount_point` (lines 107-120): reads the
device from `df`, then asserts it starts with `/dev/` — assertion
failure is an uncaught exception. -/
def get_device_by_mount_point (env : Env) (mount_point : String) :
    Option String :=
  let device := env.deviceByMountPoint mount_point
  if startswith "/dev/" device then some device else none

/-- `FileSystem.get_partition_by_uuid` (lines 99-105): reads the
partition from `blkid -U`, then asserts it starts with `/dev/`. -/
def get_partition_by_uuid (env : Env) (uuid : String) : Option String :=
  let p := env.partitionByUuid uuid
  if startswith "/dev/" p then some p else none

/-- `FileSystem.get_uuid_by_device` (lines 122-130): reads the UUID from
`blkid`, then asserts it has the canonical length 36. -/
def get_uuid_by_device (env : Env) (device : String) : Option String :=
  let uuid := env.uuidByDevice device
  if uuid.length == 36 then some uuid else none

/-- Stand-in for the `mkstemp` result used as temporary password file. -/
def tempPasswordFilePath : String := "/tmp/clone_OS_bootable__password"

inductive PwInit
  | okPw (password_file_path : String) (jobs : List CleanJob)
      (acts : List InitAction)
  | exitPw (code : Nat)
  deriving DecidableEq, Repr

/-- `FileSystem._init_password_file` (lines 193-208).  A caller-supplied
password file is used as-is.  Otherwise a missing password is `exit(4)`;
a literal password is written to a fresh temp file: the umask-restore
job is pushed and immediately drained again by `do_one_job` (lines
200-204, a net no-op on the cleaner), then removal of the temp file is
registered. -/
def _init_password_file (jobs : List CleanJob)
    (password password_file : Option String) : PwInit :=
  if truthy password_file then
    .okPw (password_file.getD "") jobs []
  else if !truthy password then
    .exitPw 4
  else
    let jobs1 := jobs ++ [.restoreUmask]
    let jobs2 := jobs1.dropLast
    .okPw tempPasswordFilePath (jobs2 ++ [.removePasswordFile])
      [.writePasswordTempfile]

inductive LuksOpenRes
  | okOpen (jobs : List CleanJob)
  | exitOpen (code : Nat)
  | raisedOpen
  deriving DecidableEq, Repr

/-- `FileSystem._luks_open` (lines 215-228): on success register the
`luksClose` job; exit status 2 means wrong passphrase and `exit(3)`;
any other failure re-raises. -/
def _luks_open (env : Env) (jobs : List CleanJob)
    (uuid_on_partition : String) : LuksOpenRes :=
  if env.luksOpenRc == 0 then
    .okOpen (jobs ++ [.luksClose uuid_on_partition])
  else if env.luksOpenRc == 2 then
    .exitOpen 3
  else
    .raisedOpen

/-- `FileSystem._mount` (lines 230-244) and the guard at lines 181-182:
only when no mount point was supplied, create a temp directory
(register `rmdir`), run `mount` and register `umount`. -/
def finishMount (mountpointGiven : Bool) (acts : List InitAction)
    (jobs : List CleanJob) : InitOutcome :=
  if mountpointGiven then
    ⟨.ok, acts, jobs⟩
  else
    ⟨.ok, acts ++ [.mountCmd], jobs ++ [.rmdirMountpoint, .umountMountpoint]⟩

/-- Continuation of `__init__` from the LUKS probe at line 160, after the
partition device path and on-partition UUID have been resolved. -/
def initFromProbe (env : Env) (mountpointGiven : Bool)
    (uuid_on_partition : String) (password password_file : Option String)
    (acts : List InitAction) (jobs : List CleanJob) : InitOutcome :=
  let acts := acts ++ [.probeLuks]
  if env.isLuks then
    match _init_password_file jobs password password_file with
    | .exitPw c => ⟨.exited c, acts, jobs⟩
    | .okPw _pf jobs1 actsPw =>
      let acts := acts ++ actsPw ++ [.cryptsetupLuksOpen]
      match _luks_open env jobs1 uuid_on_partition with
      | .exitOpen c => ⟨.exited c, acts, jobs1⟩
      | .raisedOpen => ⟨.raised, acts, jobs1⟩
      | .okOpen jobs2 =>
        let mapper := "/dev/mapper/" ++ uuid_on_partition
        match get_uuid_by_device env mapper with
        | none => ⟨.raised, acts ++ [.getUuidByDevice mapper], jobs2⟩
        | some _fsUuid =>
          finishMount mountpointGiven (acts ++ [.getUuidByDevice mapper]) jobs2
  else
    if truthy password || truthy password_file then
      ⟨.exited 2, acts, jobs⟩
    else
      finishMount mountpointGiven acts jobs

/-- `FileSystem.__init__` (lines 132-191).  Note that the argument check
at lines 135-136 constructs `RuntimeError(...)` but never raises it
(there is no `raise`), so it has no effect whatsoever and construction
continues for every argument combination.  When neither argument is
truthy, neither resolution branch runs and the first later use of
`self.partition_device_path` (the `debug` call at line 157) raises
`AttributeError`. -/
def fileSystemInit (env : Env) (jobs0 : List CleanJob)
    (mountpoint uuid password password_file : Option String) : InitOutcome :=
  if truthy mountpoint then
    match get_device_by_mount_point env (mountpoint.getD "") with
    | none => ⟨.raised, [.getDeviceByMountPoint], jobs0⟩
    | some dev =>
      match get_uuid_by_device env dev with
      | none => ⟨.raised, [.getDeviceByMountPoint, .getUuidByDevice dev], jobs0⟩
      | some u =>
        initFromProbe env true u password password_file
          [.getDeviceByMountPoint, .getUuidByDevice dev] jobs0
  else if truthy uuid then
    match get_partition_by_uuid env (uuid.getD "") with
    | none => ⟨.raised, [.getPartitionByUuid], jobs0⟩
    | some _dev =>
      initFromProbe env false (uuid.getD "") password password_file
        [.getPartitionByUuid] jobs0
  else
    ⟨.raised, [], jobs0⟩

/-- A concrete, well-shaped environment: a plain (non-LUKS) partition. -/
def envPlain : Env where
  deviceByMountPoint := fun _ => "/dev/sda1"
  partitionByUuid := fun _ => "/dev/sdb1"
  uuidByDevice := fun _ => "123e4567-e89b-12d3-a456-426614174000"
  isLuks := false
  luksOpenRc := 0

/-- A LUKS partition whose `cryptsetup luksOpen` fails with status 2
(wrong passphrase). -/
def envLuksWrongPass : Env :=
  { envPlain with isLuks := true, luksOpenRc := 2 }

/-- C2 evidence: constructing with BOTH `mountpoint` and `uuid` supplied
returns normally — the mutual-exclusion `RuntimeError` at line 136 is
built but never raised, so construction does not fail. -/
theorem init_both_args_returns_normally :
    (fileSystemInit envPlain [] (some "/")
      (some "123e4567-e89b-12d3-a456-426614174000") none none).result =
      .ok := by
  decide

/-- C5: a partition probed as not LUKS-encrypted with a (truthy) literal
password supplied makes construction exit with code 2, registering no
cleanup job at all and issuing no mount command. -/
theorem init_nonluks_password_exit2
    (env : Env) (jobs0 : List CleanJob)
    (mountpoint uuid password password_file : Option String)
    (hdev : ∀ mp, startswith "/dev/" (env.deviceByMountPoint mp) = true)
    (hpart : ∀ u, startswith "/dev/" (env.partitionByUuid u) = true)
    (huuid : ∀ d, (env.uuidByDevice d).length = 36)
    (hres : truthy mountpoint = true ∨ truthy uuid = true)
    (hluks : env.isLuks = false)
    (hpw : truthy password = true) :
    (fileSystemInit env jobs0 mountpoint uuid password password_file).result =
      .exited 2 ∧
    (fileSystemInit env jobs0 mountpoint uuid password password_file).jobs =
      jobs0 ∧
    .mountCmd ∉
      (fileSystemInit env jobs0 mountpoint uuid password password_file).actions := by
  cases htm : truthy mountpoint with
  | true =>
    simp [fileSystemInit, htm, get_device_by_mount_point, hdev,
      get_uuid_by_device, huuid, initFromProbe, hluks, hpw]
  | false =>
    have htu : truthy uuid = true := by
      rcases hres with h | h
      · exact absurd h (by simp [htm])
      · exact h
    simp [fileSystemInit, htm, htu, get_partition_by_uuid, hpart,
      initFromProbe, hluks, hpw]

/-- C5 witness at a concrete input: non-LUKS environment, source mounted
at `/`, literal password supplied. -/
theorem init_nonluks_password_exit2_witness :
    (fileSystemInit envPlain [] (some "/") none (some "secretpw") none).result =
      .exited 2 ∧
    (fileSystemInit envPlain [] (some "/") none (some "secretpw") none).jobs =
      [] ∧
    .mountCmd ∉
      (fileSystemInit envPlain [] (some "/") none (some "secretpw") none).actions :=
  init_nonluks_password_exit2 envPlain [] (some "/") none (some "secretpw")
    none (fun _ => rfl) (fun _ => rfl) (fun _ => rfl)
    (Or.inl (by decide)) (by decide) (by decide)

/-- C6: a LUKS-encrypted partition whose open attempt reports exit
status 2 (wrong passphrase) makes construction exit with code 3; no
mount command is ever issued, and the only cleanup job possibly added
is removal of the temporary password file. -/
theorem init_luks_wrong_passphrase_exit3
    (env : Env) (jobs0 : List CleanJob)
    (mountpoint uuid password password_file : Option String)
    (hdev : ∀ mp, startswith "/dev/" (env.deviceByMountPoint mp) = true)
    (hpart : ∀ u, startswith "/dev/" (env.partitionByUuid u) = true)
    (huuid : ∀ d, (env.uuidByDevice d).length = 36)
    (hres : truthy mountpoint = true ∨ truthy uuid = true)
    (hluks : env.isLuks = true)
    (hrc : env.luksOpenRc = 2)
    (hpw : truthy password = true ∨ truthy password_file = true) :
    (fileSystemInit env jobs0 mountpoint uuid password password_file).result =
      .exited 3 ∧
    .mountCmd ∉
      (fileSystemInit env jobs0 mountpoint uuid password password_file).actions ∧
    ((fileSystemInit env jobs0 mountpoint uuid password password_file).jobs =
        jobs0 ∨
      (fileSystemInit env jobs0 mountpoint uuid password password_file).jobs =
        jobs0 ++ [.removePasswordFile]) := by
  have hps : _init_password_file jobs0 password password_file =
        .okPw (password_file.getD "") jobs0 [] ∨
      _init_password_file jobs0 password password_file =
        .okPw tempPasswordFilePath (jobs0 ++ [.removePasswordFile])
          [.writePasswordTempfile] := by
    cases hpf : truthy password_file with
    | true => left; simp [_init_password_file, hpf]
    | false =>
      have hp : truthy password = true := by
        rcases hpw with h | h
        · exact h
        · exact absurd h (by simp [hpf])
      right
      simp [_init_password_file, hpf, hp, List.dropLast_concat]
  cases htm : truthy mountpoint with
  | true =>
    rcases hps with hps | hps <;>
      simp [fileSystemInit, htm, get_device_by_mount_point, hdev,
        get_uuid_by_device, huuid, initFromProbe, hluks, hps, _luks_open, hrc]
  | false =>
    have htu : truthy uuid = true := by
      rcases hres with h | h
      · exact absurd h (by simp [htm])
      · exact h
    rcases hps with hps | hps <;>
      simp [fileSystemInit, htm, htu, get_partition_by_uuid, hpart,
        initFromProbe, hluks, hps, _luks_open, hrc]

/-- C6 witness at a concrete input: LUKS destination by UUID with a
wrong literal password. -/
theorem init_luks_wrong_passphrase_exit3_witness :
    (fileSystemInit envLuksWrongPass []
      none (some "123e4567-e89b-12d3-a456-426614174000")
      (some "wrong") none).result = .exited 3 ∧
    .mountCmd ∉
      (fileSystemInit envLuksWrongPass []
        none (some "123e4567-e89b-12d3-a456-426614174000")
        (some "wrong") none).actions ∧
    ((fileSystemInit envLuksWrongPass []
        none (some "123e4567-e89b-12d3-a456-426614174000")
        (some "wrong") none).jobs = [] ∨
      (fileSystemInit envLuksWrongPass []
        none (some "123e4567-e89b-12d3-a456-426614174000")
        (some "wrong") none).jobs = [] ++ [.removePasswordFile]) :=
  init_luks_wrong_passphrase_exit3 envLuksWrongPass []
    none (some "123e4567-e89b-12d3-a456-426614174000") (some "wrong") none
    (fun _ => rfl) (fun _ => rfl) (fun _ => rfl)
    (Or.inr (by decide)) (by decide) (by decide) (Or.inl (by decide))

/-- C10: for a non-LUKS partition the exit-2 check is
`if password or password_file:`, so supplying only a password-file path
(no literal password) also makes construction exit with code 2. -/
theorem init_nonluks_password_file_exit2
    (env : Env) (jobs0 : List CleanJob)
    (mountpoint uuid password_file : Option String)
    (hdev : ∀ mp, startswith "/dev/" (env.deviceByMountPoint mp) = true)
    (hpart : ∀ u, startswith "/dev/" (env.partitionByUuid u) = true)
    (huuid : ∀ d, (env.uuidByDevice d).length = 36)
    (hres : truthy mountpoint = true ∨ truthy uuid = true)
    (hluks : env.isLuks = false)
    (hpf : truthy password_file = true) :
    (fileSystemInit env jobs0 mountpoint uuid none password_file).result =
      .exited 2 ∧
    (fileSystemInit env jobs0 mountpoint uuid none password_file).jobs =
      jobs0 ∧
    .mountCmd ∉
      (fileSystemInit env jobs0 mountpoint uuid none password_file).actions := by
  cases htm : truthy mountpoint with
  | true =>
    simp [fileSystemInit, htm, get_device_by_mount_point, hdev,
      get_uuid_by_device, huuid, initFromProbe, hluks, hpf]
  | false =>
    have htu : truthy uuid = true := by
      rcases hres with h | h
      · exact absurd h (by simp [htm])
      · exact h
    simp [fileSystemInit, htm, htu, get_partition_by_uuid, hpart,
      initFromProbe, hluks, hpf]

/-- C10 witness at a concrete input: non-LUKS destination by UUID with
only a password file supplied. -/
theorem init_nonluks_password_file_exit2_witness :
    (fileSystemInit envPlain []
      none (some "123e4567-e89b-12d3-a456-426614174000")
      none (some "/root/pw")).result = .exited 2 ∧
    (fileSystemInit envPlain []
      none (some "123e4567-e89b-12d3-a456-426614174000")
      none (some "/root/pw")).jobs = [] ∧
    .mountCmd ∉
      (fileSystemInit envPlain []
        none (some "123e4567-e89b-12d3-a456-426614174000")
        none (some "/root/pw")).actions :=
  init_nonluks_password_file_exit2 envPlain []
    none (some "123e4567-e89b-12d3-a456-426614174000") (some "/root/pw")
    (fun _ => rfl) (fun _ => rfl) (fun _ => rfl)
    (Or.inr (by decide)) (by decide) (by decide)

/-! ### Orchestrator step sequence (`main`, lines 472-546)

After argument parsing and logging setup, `main` performs a fixed,
unconditional sequence of steps; the only branch is the final
`grub_is_installed` probe deciding whether `grub-install` runs.  The
inductive below also provides a constructor for a boot-directory
content comparison so that its absence from the sequence is a statement
the embedding can express. -/

inductive Step
  | registerSyncJob
  | constructSrcFs
  | constructDestFs
  | bootDirDiff
  | rsyncStep
  | prepareChrootStep
  | fixFstabStep
  | fixGrubConfigStep
  | makeLuksRootBootableStep
  | ensureBootableFlagStep
  | updateGrubStep
  | grubInstallStep
  deriving DecidableEq, Repr

/-- The steps `main` performs, in order (lines 518-546), parametrised by
the result of the `grub_is_installed` probe at line 542. -/
def mainSteps (grubInstalled : Bool) : List Step :=
  [.registerSyncJob, .constructSrcFs, .constructDestFs, .rsyncStep,
   .prepareChrootStep, .fixFstabStep, .fixGrubConfigStep,
   .makeLuksRootBootableStep, .ensureBootableFlagStep, .updateGrubStep] ++
  (if grubInstalled then [] else [.grubInstallStep])

/-- C3 counterexample: in a run of `main` (here with Grub already
installed) no boot-directory content comparison occurs anywhere — in
particular not between the FileSystem constructions and the transfer. -/
theorem mainSteps_no_boot_dir_diff : Step.bootDirDiff ∉ mainSteps true := by
  decide

/-- C3 as amended: `main` performs no boot-directory comparison at all;
the bootloader configuration is regenerated unconditionally (chrooted
`update-grub` after the transfer and repair steps), and the only
bootloader-related decision is whether to run `grub-install`, taken by
probing the destination disk's boot sector for a GRUB signature. -/
theorem mainSteps_unconditional_update_grub (grubInstalled : Bool) :
    Step.bootDirDiff ∉ mainSteps grubInstalled ∧
    Step.updateGrubStep ∈ mainSteps grubInstalled ∧
    (Step.grubInstallStep ∈ mainSteps grubInstalled ↔ grubInstalled = false) := by
  cases grubInstalled <;> decide

/-! ### `FileSystem.path` (lines 246-255)

Paths are modelled as character lists.  `path` folds `os.path.flatten`
over the segments, first stripping every leading `/` from each segment
(`bit.lstrip(path_sep)`). -/

/-- Python `bit.lstrip(path_sep)`: drop all leading `/` characters. -/
def lstripSep : List Char → List Char
  | [] => []
  | c :: rest => if c = '/' then lstripSep rest else c :: rest

/-- `posixpath.flatten` for two components: an absolute second component
replaces the first; otherwise they are joined with `/` unless the first
is empty or already ends with `/`. -/
def osPathJoin (a b : List Char) : List Char :=
  if b.head? = some '/' then b
  else if a = [] ∨ a.getLast? = some '/' then a ++ b
  else a ++ '/' :: b

/-- `FileSystem.path` (lines 246-255): join the segments under the mount
point, lstripping each segment first. -/
def fsPath (mountpoint : List Char) (bits : List (List Char)) : List Char :=
  bits.foldl (fun out bit => osPathJoin out (lstripSep bit)) mountpoint

/-- C7: `path` normalises absolute-looking segments — a segment with a
leading `/` resolves exactly as the same segment without it, for every
mount point and any following segments; in particular
`fs.path("/proc") = fs.path("proc")`. -/
theorem path_strips_leading_sep (mp s : List Char) (bits : List (List Char)) :
    fsPath mp (('/' :: s) :: bits) = fsPath mp (s :: bits) ∧
    fsPath mp ["/proc".data] = fsPath mp ["proc".data] := by
  constructor
  · simp [fsPath, lstripSep]
  · simp [fsPath, lstripSep]

/-! ### `ensure_bootable_flag` (lines 459-468)

The partition table is abstracted as the list of partition device paths
currently carrying the bootable flag.  The probe
`sfdisk --activate --no-reread <disk>` prints those paths one per line,
and the code tests membership with Python's substring operator `in` on
that output.  Setting the flag (`sfdisk --activate <disk> <n>`) makes
the partition `<disk><n>` — the partition device path, cf. the
round-trip below — listed by every subsequent probe.  The Boolean in
the result records whether the flag-setting command was issued. -/

structure Disk where
  active : List String
  deriving DecidableEq, Repr

/-- Stdout of `sfdisk --activate --no-reread`: the bootable partitions,
one per line. -/
def sfdiskActivateOutput (d : Disk) : List Char :=
  (d.active.map (fun p => p.data ++ ['\n'])).flatten

/-- `ensure_bootable_flag` (lines 459-468): probe first; issue the
flag-setting command only if the partition's device path does not occur
in the probe output. -/
def ensure_bootable_flag (d : Disk) (partition_device_path : String) :
    Disk × Bool :=
  if partition_device_path.data <:+: sfdiskActivateOutput d then
    (d, false)
  else
    (⟨partition_device_path :: d.active⟩, true)

/-- C8: the flag-setting command is issued exactly when the partition is
not already listed as bootable, and running the step a second time never
issues it again — the step is idempotent (probe-before-set). -/
theorem ensure_bootable_flag_idempotent (d : Disk) (p : String) :
    ((ensure_bootable_flag d p).2 = true ↔
      ¬ p.data <:+: sfdiskActivateOutput d) ∧
    (ensure_bootable_flag (ensure_bootable_flag d p).1 p).2 = false ∧
    (ensure_bootable_flag (ensure_bootable_flag d p).1 p).1 =
      (ensure_bootable_flag d p).1 := by
  by_cases h : p.data <:+: sfdiskActivateOutput d
  · simp [ensure_bootable_flag, h]
  · have hout : sfdiskActivateOutput ⟨p :: d.active⟩ =
        p.data ++ ('\n' :: (d.active.map (fun q => q.data ++ ['\n'])).flatten) := by
      simp [sfdiskActivateOutput]
    have hin : p.data <:+: sfdiskActivateOutput ⟨p :: d.active⟩ := by
      rw [hout]
      exact (List.prefix_append _ _).isInfix
    simp [ensure_bootable_flag, h, hin]

/-! ### `partition_number` and `device_path` (lines 257-271)

The pattern `[0-9]+$` matches the maximal run of decimal digits at the
end of the device path; `re.search` fails (and the assertion at line
261 with it) exactly when the path does not end in a digit, and
`re.sub` deletes that same trailing run. -/

/-- The trailing run of decimal digits — the match of `[0-9]+$`. -/
def trailingDigits (s : List Char) : List Char :=
  (s.reverse.takeWhile Char.isDigit).reverse

/-- The device path with the trailing digit run removed — the result of
`re.sub(r"[0-9]+$", "", ...)`. -/
def stripTrailingDigits (s : List Char) : List Char :=
  (s.reverse.dropWhile Char.isDigit).reverse

/-- `FileSystem.partition_number` (lines 257-265): the trailing digit
run of `partition_device_path`; `none` models the assertion failure
when `[0-9]+$` does not match. -/
def partition_number (partition_device_path : List Char) :
    Option (List Char) :=
  let m := trailingDigits partition_device_path
  if m = [] then none else some m

/-- `FileSystem.device_path` (lines 267-271): strip the trailing digit
run; `none` models the assertion failure when the remainder does not
start with `/dev/`. -/
def device_path (partition_device_path : List Char) : Option (List Char) :=
  let device := stripTrailingDigits partition_device_path
  if "/dev/".data.isPrefixOf device then some device else none

theorem strip_append_trailing (p : List Char) :
    stripTrailingDigits p ++ trailingDigits p = p := by
  unfold stripTrailingDigits trailingDigits
  calc (p.reverse.dropWhile Char.isDigit).reverse ++
        (p.reverse.takeWhile Char.isDigit).reverse
      = (p.reverse.takeWhile Char.isDigit ++
          p.reverse.dropWhile Char.isDigit).reverse := by
        rw [List.reverse_append]
    _ = p.reverse.reverse := by rw [List.takeWhile_append_dropWhile]
    _ = p := List.reverse_reverse p

/-- C9: whenever both derived values exist, the whole-disk device path
concatenated with the partition number is the original partition device
path; and `partition_number` succeeds exactly when the path ends in a
decimal digit (otherwise its assertion fails). -/
theorem partition_number_roundtrip (p : List Char) :
    (∀ dev m, device_path p = some dev → partition_number p = some m →
      dev ++ m = p) ∧
    (partition_number p).isSome = p.getLast?.any Char.isDigit := by
  constructor
  · intro dev m hdev hm
    have hdev' : dev = stripTrailingDigits p := by
      unfold device_path at hdev
      by_cases h : "/dev/".data.isPrefixOf (stripTrailingDigits p)
      · simp [h] at hdev; exact hdev.symm
      · simp [h] at hdev
    have hm' : m = trailingDigits p := by
      unfold partition_number at hm
      by_cases h : trailingDigits p = []
      · simp [h] at hm
      · simp [h] at hm; exact hm.symm
    rw [hdev', hm']
    exact strip_append_trailing p
  · have hhead : p.getLast? = p.reverse.head? := (List.head?_reverse p).symm
    unfold partition_number trailingDigits
    cases hr : p.reverse with
    | nil =>
      rw [hhead, hr]
      simp
    | cons c rest =>
      rw [hhead, hr]
      by_cases hc : Char.isDigit c
      · simp [List.takeWhile_cons, hc]
      · simp [List.takeWhile_cons, hc]

/-- C9 witness: for `/dev/sdb1`, the partition number is `1`, the disk
device is `/dev/sdb`, and their concatenation restores the original
path. -/
theorem partition_number_roundtrip_witness :
    device_path "/dev/sdb1".data = some "/dev/sdb".data ∧
    partition_number "/dev/sdb1".data = some ['1'] ∧
    "/dev/sdb".data ++ ['1'] = "/dev/sdb1".data ∧
    (partition_number "/dev/sd".data).isSome = false := by
  refine ⟨by decide, by decide, ?_, ?_⟩
  · exact (partition_number_roundtrip "/dev/sdb1".data).1
      "/dev/sdb".data ['1'] (by decide) (by decide)
  · rw [(partition_number_roundtrip "/dev/sd".data).2]
    decide

end CloneOS
